import Mathlib

/-!
# TSYS01 SPI driver (`tsys01spi.cpp`)

A shallow embedding of the driver's three operations, `reset`,
`readCalibrationParameters` and `readTemperature`, over an explicit machine
state: the five file-level coefficients `k0 .. k4`, the state of the SPI bus,
and a chronological log of the calls made to `wiringPiSPIDataRW` and `delay`.

* The SPI bus is a parameter: any state type `σ` with any transfer function.
  A transfer returns a status (which the driver never looks at) and the bytes
  it clocked in, which overwrite the start of the caller's buffer.
* `unsigned char buffer[100]` is a function from index to byte.  Its initial
  contents are indeterminate in the source, so each operation takes them as
  the parameter `junk`.  The driver only ever touches indices `0 .. 3`.
* Console output (`cout`) is not modelled.
-/

namespace Tsys01

/-! ## Constants (lines 37-50) -/

def CHANNEL : Nat := 1

def CMD_RESET : Nat := 0x1E
def CMD_START_ADC_CONVERSION : Nat := 0x48
def CMD_READ_ADC_RESULT : Nat := 0x00
def CMD_READ_PROM_ADDR_0 : Nat := 0xA0
def CMD_READ_PROM_ADDR_1 : Nat := 0xA2
def CMD_READ_PROM_ADDR_2 : Nat := 0xA4
def CMD_READ_PROM_ADDR_3 : Nat := 0xA6
def CMD_READ_PROM_ADDR_4 : Nat := 0xA8
def CMD_READ_PROM_ADDR_5 : Nat := 0xAA
def CMD_READ_PROM_ADDR_6 : Nat := 0xAC
def CMD_READ_PROM_ADDR_7 : Nat := 0xAE

/-! ## The bus and the machine state -/

/-- What one call of `wiringPiSPIDataRW` gives back: its `int` return value
and the bytes clocked in from the device. -/
structure Reply where
  status : Int
  data : List Nat
  deriving DecidableEq, Repr

/-- The SPI transport: from the bus state, the channel and the frame sent, the
next bus state and the reply. -/
structure Spi (σ : Type) where
  wiringPiSPIDataRW : σ → Nat → List Nat → σ × Reply

/-- One externally visible action of the driver. -/
inductive Event where
  | dataRW (channel : Nat) (frame : List Nat) (reply : Reply)
  | delay (ms : Nat)
  deriving DecidableEq, Repr

/-- The file-level state `static uint16_t k0, k1, k2, k3, k4` (line 52),
together with the bus and the log of actions so far. -/
structure Machine (σ : Type) where
  k0 : Nat
  k1 : Nat
  k2 : Nat
  k3 : Nat
  k4 : Nat
  bus : σ
  log : List Event
  deriving DecidableEq, Repr

/-- State at program start: objects of static storage duration are
zero-initialised, nothing has happened on the bus. -/
def Machine.init {σ : Type} (bus : σ) : Machine σ :=
  { k0 := 0, k1 := 0, k2 := 0, k3 := 0, k4 := 0, bus := bus, log := [] }

/-- The five coefficients in the order `k0 .. k4`. -/
def Machine.coeffs {σ : Type} (m : Machine σ) : List Nat :=
  [m.k0, m.k1, m.k2, m.k3, m.k4]

/-! ## The byte buffer -/

/-- Contents of `unsigned char buffer[100]`, by index. -/
abbrev Buffer := Nat → Nat

/-- The assignment `buffer[i] = v` into an `unsigned char`. -/
def bufStore (buf : Buffer) (i v : Nat) : Buffer :=
  fun j => if j = i then v % 256 else buf j

/-- The first `len` bytes of the buffer: the frame a transfer sends. -/
def bufFrame (buf : Buffer) (len : Nat) : List Nat :=
  (List.range len).map buf

/-- The buffer after a transfer of `len` bytes that clocked in `data`: the
bytes received replace the bytes sent, position by position, never beyond
`len`. -/
def bufWriteBack (buf : Buffer) (len : Nat) (data : List Nat) : Buffer :=
  fun j => if j < len ∧ j < data.length then data.getD j 0 % 256 else buf j

/-- The statement `wiringPiSPIDataRW(CHANNEL, buffer, len);`.  The return value
is discarded, as everywhere in the source. -/
def spiDataRW {σ : Type} (spi : Spi σ) (m : Machine σ) (buf : Buffer) (len : Nat) :
    Machine σ × Buffer :=
  let frame := bufFrame buf len
  let r := spi.wiringPiSPIDataRW m.bus CHANNEL frame
  ({ m with bus := r.1, log := m.log ++ [Event.dataRW CHANNEL frame r.2] },
    bufWriteBack buf len r.2.data)

/-- The statement `delay(ms);`. -/
def delay {σ : Type} (ms : Nat) (m : Machine σ) : Machine σ :=
  { m with log := m.log ++ [Event.delay ms] }

/-! ## Integer and floating-point conversions -/

/-- Conversion of an `int` value to `uint16_t`. -/
def toUInt16 (x : Nat) : Nat := x % 65536

/-- Value of an `int` expression: 32-bit two's complement. -/
def wrapInt32 (x : Int) : Int := (x + 2 ^ 31) % 2 ^ 32 - 2 ^ 31

/-- Exponent of the unit in the last place of an IEEE 754 binary32 number of
the magnitude of `q`: 24 significant bits, subnormals from `2^-149`. -/
def f32UlpExp (q : ℚ) : Int := max (-149) (Int.log 2 |q| - 23)

/-- Round to the nearest integer, ties to even. -/
def roundHalfEven (x : ℚ) : Int :=
  let f := ⌊x⌋
  if x - f < 1 / 2 then f
  else if 1 / 2 < x - f then f + 1
  else if f % 2 = 0 then f else f + 1

/-- Rounding of a real value to binary32, round-to-nearest-even.  Overflow to
infinity is left out: the driver only rounds values of magnitude below
`2^31`. -/
def roundF32 (q : ℚ) : ℚ :=
  (roundHalfEven (q / 2 ^ f32UlpExp q) : ℚ) * 2 ^ f32UlpExp q

/-- Line 118: `int adc24 = buffer[1] * 65536 + buffer[2] * 256 + buffer[3];` -/
def adc24Of (buf : Buffer) : Int :=
  wrapInt32 ((buf 1 : Int) * 65536 + (buf 2 : Int) * 256 + (buf 3 : Int))

/-- Line 119: `double adc16 = (float)adc24 / 256;` — the cast rounds to
binary32, `256` is converted to binary32 exactly, the quotient is rounded to
binary32, and the widening to `double` is exact. -/
def adc16Of (adc24 : Int) : ℚ :=
  roundF32 (roundF32 (adc24 : ℚ) / 256)

/-- Lines 123-127, read over the reals: `exp10(-n)` as `1 / 10^n` and
`pow(x, n)` as `x^n`, the five terms added left to right.  The source
evaluates this expression in IEEE 754 double precision with the C library's
`exp10` and `pow`; their rounding is not part of this definition. -/
def temperatureExpr (k0 k1 k2 k3 k4 : Nat) (adc16 : ℚ) : ℚ :=
  (-2) * (k4 : ℚ) * (1 / 10 ^ 21) * adc16 ^ 4 +
    4 * (k3 : ℚ) * (1 / 10 ^ 16) * adc16 ^ 3 +
    (-2) * (k2 : ℚ) * (1 / 10 ^ 11) * adc16 ^ 2 +
    (k1 : ℚ) * (1 / 10 ^ 6) * adc16 +
    (-3 / 2) * (k0 : ℚ) * (1 / 10 ^ 2)

/-! ## The operations -/

/-- Lines 54-96 (the `cout` lines apart). -/
def readCalibrationParameters {σ : Type} (spi : Spi σ) (junk : Buffer) (m : Machine σ) :
    Machine σ :=
  let buffer := bufStore (bufStore (bufStore junk 0 CMD_READ_PROM_ADDR_1) 1 0) 2 0
  let r := spiDataRW spi m buffer 3
  let m := { r.1 with k4 := toUInt16 (r.2 1 * 256 + r.2 2) }
  let buffer := bufStore (bufStore (bufStore r.2 0 CMD_READ_PROM_ADDR_2) 1 0) 2 0
  let r := spiDataRW spi m buffer 3
  let m := { r.1 with k3 := toUInt16 (r.2 1 * 256 + r.2 2) }
  let buffer := bufStore (bufStore (bufStore r.2 0 CMD_READ_PROM_ADDR_3) 1 0) 2 0
  let r := spiDataRW spi m buffer 3
  let m := { r.1 with k2 := toUInt16 (r.2 1 * 256 + r.2 2) }
  let buffer := bufStore (bufStore (bufStore r.2 0 CMD_READ_PROM_ADDR_4) 1 0) 2 0
  let r := spiDataRW spi m buffer 3
  let m := { r.1 with k1 := toUInt16 (r.2 1 * 256 + r.2 2) }
  let buffer := bufStore (bufStore (bufStore r.2 0 CMD_READ_PROM_ADDR_5) 1 0) 2 0
  let r := spiDataRW spi m buffer 3
  { r.1 with k0 := toUInt16 (r.2 1 * 256 + r.2 2) }

/-- Lines 99-114 of `readTemperature`: the bus transaction.  Returns the
machine and the buffer as they stand after the second transfer. -/
def readTemperatureBus {σ : Type} (spi : Spi σ) (junk : Buffer) (m : Machine σ) :
    Machine σ × Buffer :=
  let buffer := bufStore junk 0 CMD_START_ADC_CONVERSION
  let r := spiDataRW spi m buffer 1
  let m := delay 10 r.1
  let buffer :=
    bufStore (bufStore (bufStore (bufStore r.2 0 CMD_READ_ADC_RESULT) 1 0) 2 0) 3 0
  spiDataRW spi m buffer 4

/-- The local `adc24` of `readTemperature` (line 118). -/
def readTemperatureAdc24 {σ : Type} (spi : Spi σ) (junk : Buffer) (m : Machine σ) : Int :=
  adc24Of (readTemperatureBus spi junk m).2

/-- The local `adc16` of `readTemperature` (line 119). -/
def readTemperatureAdc16 {σ : Type} (spi : Spi σ) (junk : Buffer) (m : Machine σ) : ℚ :=
  adc16Of (readTemperatureAdc24 spi junk m)

/-- Lines 98-130: the value returned and the machine afterwards. -/
def readTemperature {σ : Type} (spi : Spi σ) (junk : Buffer) (m : Machine σ) :
    ℚ × Machine σ :=
  let r := readTemperatureBus spi junk m
  (temperatureExpr r.1.k0 r.1.k1 r.1.k2 r.1.k3 r.1.k4 (readTemperatureAdc16 spi junk m), r.1)

/-- Lines 141-149 (the `cout` line apart). -/
def reset {σ : Type} (spi : Spi σ) (junk : Buffer) (m : Machine σ) : Machine σ :=
  let buffer := bufStore junk 0 CMD_RESET
  let r := spiDataRW spi m buffer 1
  delay 4 r.1

/-! ## Observations on the log -/

/-- The frames handed to the transport, in order. -/
def frames : List Event → List (List Nat)
  | [] => []
  | Event.dataRW _ frame _ :: es => frame :: frames es
  | Event.delay _ :: es => frames es

/-- The replies of the transport, in order. -/
def replies : List Event → List Reply
  | [] => []
  | Event.dataRW _ _ reply :: es => reply :: replies es
  | Event.delay _ :: es => replies es

/-- The log with the replies left out: what the driver did, not what it was
told. -/
inductive Action where
  | transfer (channel : Nat) (frame : List Nat)
  | delay (ms : Nat)
  deriving DecidableEq, Repr

/-- The action of an event. -/
def Event.action : Event → Action
  | Event.dataRW channel frame _ => Action.transfer channel frame
  | Event.delay ms => Action.delay ms

/-- A call of one of the driver's operations, with the indeterminate initial
contents of its local buffer. -/
inductive Call where
  | reset (junk : Buffer)
  | readCalibrationParameters (junk : Buffer)
  | readTemperature (junk : Buffer)

/-- The machine after one call. -/
def Call.run {σ : Type} (spi : Spi σ) (m : Machine σ) : Call → Machine σ
  | Call.reset junk => Tsys01.reset spi junk m
  | Call.readCalibrationParameters junk => Tsys01.readCalibrationParameters spi junk m
  | Call.readTemperature junk => (Tsys01.readTemperature spi junk m).2

/-- The machine after a sequence of calls, as `main` makes them. -/
def runCalls {σ : Type} (spi : Spi σ) (m : Machine σ) (calls : List Call) : Machine σ :=
  calls.foldl (Call.run spi) m

/-- The replies the transport gave between two states of the machine. -/
def repliesDuring {σ : Type} (before after : Machine σ) : List Reply :=
  (replies after.log).drop (replies before.log).length

/-- The coefficients in the order in which `readCalibrationParameters` assigns
them: `k4` first, `k0` last. -/
def Machine.storedInOrder {σ : Type} (m : Machine σ) : List Nat :=
  [m.k4, m.k3, m.k2, m.k1, m.k0]

/-- The value `buffer[1] * 256 + buffer[2]`, stored to a `uint16_t`, after a
3-byte transfer that was sent `[cmd, 0, 0]` and clocked in `data`. -/
def calWord (data : List Nat) : Nat :=
  toUInt16 (bufWriteBack (fun _ => 0) 3 data 1 * 256 + bufWriteBack (fun _ => 0) 3 data 2)

/-- The errors of the driver interface described in the specification. -/
inductive DriverError where
  | notCalibrated
  | transportError
  deriving DecidableEq, Repr

/-- The result of `readTemperature` in the vocabulary of that interface.  The
source function has return type `double`, holds no calibration flag and has no
error path: every call yields a value. -/
def readTemperatureOutcome {σ : Type} (spi : Spi σ) (junk : Buffer) (m : Machine σ) :
    Except DriverError ℚ :=
  Except.ok (readTemperature spi junk m).1

/-- The lengths of the frames in a log. -/
def frameLengths (log : List Event) : List Nat := (frames log).map List.length

/-- The frames handed to the transport between two states of the machine. -/
def framesDuring {σ : Type} (before after : Machine σ) : List (List Nat) :=
  (frames after.log).drop (frames before.log).length

/-- The command byte of each frame: its first byte. -/
def commandBytes (fs : List (List Nat)) : List Nat := fs.map (fun fr => fr.headD 0)

/-- A transport that answers every 3-byte frame `[c, 0, 0]` on the driver's
channel with the 16-bit value `f c`, high byte first, in positions 1 and 2. -/
def Answers {σ : Type} (spi : Spi σ) (f : Nat → Nat) : Prop :=
  ∀ (s : σ) (c : Nat), c < 256 →
    f c < 65536 ∧
      ∃ (st : Int) (b0 : Nat),
        (spi.wiringPiSPIDataRW s CHANNEL [c, 0, 0]).2 = ⟨st, [b0, f c / 256, f c % 256]⟩

/-- A transport whose answer to a frame does not depend on the state of the
bus: the same command always gets the same bytes. -/
def SameAnswers {σ : Type} (spi : Spi σ) : Prop :=
  ∀ (s s' : σ) (ch : Nat) (frame : List Nat),
    (spi.wiringPiSPIDataRW s ch frame).2.data = (spi.wiringPiSPIDataRW s' ch frame).2.data

/-! ## Concrete transports -/

/-- The marker value of command byte `c`: `c` in both bytes. -/
def markerOf (c : Nat) : Nat := c % 256 * 257

/-- A stateless transport that answers a frame with a zero byte followed by
the frame's command byte, twice; every transfer succeeds. -/
def markerSpi : Spi Unit :=
  ⟨fun s _ frame => (s, ⟨frame.length, [0, frame.headD 0 % 256, frame.headD 0 % 256]⟩)⟩

/-- A transport that counts its transfers: the third one fails (status `-1`,
nothing clocked in), all others succeed and clock in `[0, 1, 2]`. -/
def failThirdSpi : Spi Nat :=
  ⟨fun n _ frame => (n + 1, if n = 2 then ⟨-1, []⟩ else ⟨frame.length, [0, 1, 2]⟩)⟩

/-- A stateless transport that clocks in the bytes `0xFF, 0x7F, 0xFF, 0xFF`,
as many as the frame is long: the ADC result `0x7FFFFF`. -/
def midScaleSpi : Spi Unit :=
  ⟨fun s _ frame => (s, ⟨frame.length, [0xFF, 0x7F, 0xFF, 0xFF].take frame.length⟩)⟩

/-- A buffer whose indeterminate bytes happen to be zero. -/
def zeroJunk : Buffer := fun _ => 0

/-- The machine after `readCalibrationParameters` ran at program start on the
transport whose third transfer fails. -/
def afterFailedThird : Machine Nat :=
  readCalibrationParameters failThirdSpi zeroJunk (Machine.init 0)

/-! ## Lemmas on the log -/

theorem frames_append (l₁ l₂ : List Event) : frames (l₁ ++ l₂) = frames l₁ ++ frames l₂ := by
  induction l₁ with
  | nil => rfl
  | cons e es ih => cases e <;> simp [frames, ih]

theorem replies_append (l₁ l₂ : List Event) :
    replies (l₁ ++ l₂) = replies l₁ ++ replies l₂ := by
  induction l₁ with
  | nil => rfl
  | cons e es ih => cases e <;> simp [replies, ih]

theorem reset_frames {σ : Type} (spi : Spi σ) (junk : Buffer) (m : Machine σ) :
    frames (reset spi junk m).log = frames m.log ++ [[0x1E]] := by
  simp [reset, spiDataRW, delay, frames_append, frames, bufFrame, bufStore, CMD_RESET,
    List.range_succ]

theorem readTemperature_frames {σ : Type} (spi : Spi σ) (junk : Buffer) (m : Machine σ) :
    frames (readTemperature spi junk m).2.log = frames m.log ++ [[0x48], [0x00, 0, 0, 0]] := by
  simp [readTemperature, readTemperatureBus, spiDataRW, delay, frames_append, frames, bufFrame,
    bufStore, CMD_START_ADC_CONVERSION, CMD_READ_ADC_RESULT, List.range_succ]

theorem readCalibrationParameters_frames {σ : Type} (spi : Spi σ) (junk : Buffer)
    (m : Machine σ) :
    frames (readCalibrationParameters spi junk m).log =
      frames m.log ++
        [[0xA2, 0, 0], [0xA4, 0, 0], [0xA6, 0, 0], [0xA8, 0, 0], [0xAA, 0, 0]] := by
  simp [readCalibrationParameters, spiDataRW, frames_append, frames, bufFrame, bufStore,
    CMD_READ_PROM_ADDR_1, CMD_READ_PROM_ADDR_2, CMD_READ_PROM_ADDR_3, CMD_READ_PROM_ADDR_4,
    CMD_READ_PROM_ADDR_5, List.range_succ]

theorem framesDuring_readCalibrationParameters {σ : Type} (spi : Spi σ) (junk : Buffer)
    (m : Machine σ) :
    framesDuring m (readCalibrationParameters spi junk m) =
      [[0xA2, 0, 0], [0xA4, 0, 0], [0xA6, 0, 0], [0xA8, 0, 0], [0xAA, 0, 0]] := by
  simp [framesDuring, readCalibrationParameters_frames]

theorem frameLengths_run {σ : Type} (spi : Spi σ) (m : Machine σ) (c : Call)
    (h : frameLengths m.log ⊆ [1, 3, 4]) : frameLengths (c.run spi m).log ⊆ [1, 3, 4] := by
  cases c with
  | reset junk =>
    simp only [Call.run, frameLengths, reset_frames, List.map_append]
    intro x hx
    rcases List.mem_append.1 hx with hx | hx
    · exact h hx
    · simp at hx; simp [hx]
  | readCalibrationParameters junk =>
    simp only [Call.run, frameLengths, readCalibrationParameters_frames, List.map_append]
    intro x hx
    rcases List.mem_append.1 hx with hx | hx
    · exact h hx
    · simp at hx; simp [hx]
  | readTemperature junk =>
    simp only [Call.run, frameLengths, readTemperature_frames, List.map_append]
    intro x hx
    rcases List.mem_append.1 hx with hx | hx
    · exact h hx
    · simp at hx; rcases hx with hx | hx <;> simp [hx]

theorem frameLengths_runCalls {σ : Type} (spi : Spi σ) (calls : List Call) (m : Machine σ)
    (h : frameLengths m.log ⊆ [1, 3, 4]) :
    frameLengths (runCalls spi m calls).log ⊆ [1, 3, 4] := by
  induction calls generalizing m with
  | nil => simpa [runCalls] using h
  | cons c cs ih =>
    have := ih (c.run spi m) (frameLengths_run spi m c h)
    simpa [runCalls] using this

/-! ## Lemmas on `readCalibrationParameters` -/

/-- The whole effect of `readCalibrationParameters`, transfer by transfer. -/
theorem readCalibrationParameters_eq {σ : Type} (spi : Spi σ) (junk : Buffer)
    (m : Machine σ) :
    readCalibrationParameters spi junk m =
      (let r1 := spi.wiringPiSPIDataRW m.bus CHANNEL [0xA2, 0, 0]
       let r2 := spi.wiringPiSPIDataRW r1.1 CHANNEL [0xA4, 0, 0]
       let r3 := spi.wiringPiSPIDataRW r2.1 CHANNEL [0xA6, 0, 0]
       let r4 := spi.wiringPiSPIDataRW r3.1 CHANNEL [0xA8, 0, 0]
       let r5 := spi.wiringPiSPIDataRW r4.1 CHANNEL [0xAA, 0, 0]
       { k0 := calWord r5.2.data, k1 := calWord r4.2.data, k2 := calWord r3.2.data,
         k3 := calWord r2.2.data, k4 := calWord r1.2.data, bus := r5.1,
         log := m.log ++
           [Event.dataRW CHANNEL [0xA2, 0, 0] r1.2, Event.dataRW CHANNEL [0xA4, 0, 0] r2.2,
            Event.dataRW CHANNEL [0xA6, 0, 0] r3.2, Event.dataRW CHANNEL [0xA8, 0, 0] r4.2,
            Event.dataRW CHANNEL [0xAA, 0, 0] r5.2] }) := by
  simp [readCalibrationParameters, spiDataRW, bufFrame, bufStore, bufWriteBack, calWord,
    CMD_READ_PROM_ADDR_1, CMD_READ_PROM_ADDR_2, CMD_READ_PROM_ADDR_3, CMD_READ_PROM_ADDR_4,
    CMD_READ_PROM_ADDR_5, List.range_succ]

theorem repliesDuring_readCalibrationParameters {σ : Type} (spi : Spi σ) (junk : Buffer)
    (m : Machine σ) :
    repliesDuring m (readCalibrationParameters spi junk m) =
      (let r1 := spi.wiringPiSPIDataRW m.bus CHANNEL [0xA2, 0, 0]
       let r2 := spi.wiringPiSPIDataRW r1.1 CHANNEL [0xA4, 0, 0]
       let r3 := spi.wiringPiSPIDataRW r2.1 CHANNEL [0xA6, 0, 0]
       let r4 := spi.wiringPiSPIDataRW r3.1 CHANNEL [0xA8, 0, 0]
       let r5 := spi.wiringPiSPIDataRW r4.1 CHANNEL [0xAA, 0, 0]
       [r1.2, r2.2, r3.2, r4.2, r5.2]) := by
  simp [repliesDuring, readCalibrationParameters_eq, replies_append, replies]

/-- The coefficients are the words of the five replies, in the order
received. -/
theorem storedInOrder_readCalibrationParameters {σ : Type} (spi : Spi σ) (junk : Buffer)
    (m : Machine σ) :
    (readCalibrationParameters spi junk m).storedInOrder =
      (repliesDuring m (readCalibrationParameters spi junk m)).map
        (fun r => calWord r.data) := by
  rw [repliesDuring_readCalibrationParameters]
  simp [readCalibrationParameters_eq, Machine.storedInOrder]

theorem coeffs_eq_reverse {σ : Type} (m : Machine σ) : m.coeffs = m.storedInOrder.reverse := by
  simp [Machine.coeffs, Machine.storedInOrder]

theorem calWord_three (b0 hi lo : Nat) (hhi : hi < 256) (hlo : lo < 256) :
    calWord [b0, hi, lo] = hi * 256 + lo := by
  simp [calWord, bufWriteBack, toUInt16, Nat.mod_eq_of_lt hhi, Nat.mod_eq_of_lt hlo]
  omega

theorem calWord_of_value (b0 v : Nat) (hv : v < 65536) :
    calWord [b0, v / 256, v % 256] = v := by
  rw [calWord_three b0 _ _ (by omega) (by omega)]
  omega

/-- On a transport whose answers do not depend on the bus state, the
coefficients after a call are the same from any two starting points. -/
theorem coeffs_readCalibrationParameters_of_sameAnswers {σ : Type} (spi : Spi σ)
    (h : SameAnswers spi) (junk junk' : Buffer) (m m' : Machine σ) :
    (readCalibrationParameters spi junk m).coeffs =
      (readCalibrationParameters spi junk' m').coeffs := by
  have key : ∀ (s s' : σ) (fr : List Nat),
      calWord (spi.wiringPiSPIDataRW s CHANNEL fr).2.data =
        calWord (spi.wiringPiSPIDataRW s' CHANNEL fr).2.data :=
    fun s s' fr => congrArg calWord (h s s' CHANNEL fr)
  simp only [readCalibrationParameters_eq, Machine.coeffs, List.cons.injEq, and_true]
  exact ⟨key _ _ _, key _ _ _, key _ _ _, key _ _ _, key _ _ _⟩

theorem markerSpi_answers : Answers markerSpi markerOf := by
  intro s c hc
  refine ⟨by unfold markerOf; omega, 3, 0, ?_⟩
  simp [markerSpi, markerOf, Nat.mod_eq_of_lt hc]
  omega

theorem markerSpi_sameAnswers : SameAnswers markerSpi := fun _ _ _ _ => rfl

/-! ## Lemmas on `readTemperature` -/

/-- The whole effect of the bus transaction of `readTemperature` on the
machine. -/
theorem readTemperatureBus_fst {σ : Type} (spi : Spi σ) (junk : Buffer) (m : Machine σ) :
    (readTemperatureBus spi junk m).1 =
      (let r1 := spi.wiringPiSPIDataRW m.bus CHANNEL [0x48]
       let r2 := spi.wiringPiSPIDataRW r1.1 CHANNEL [0x00, 0, 0, 0]
       { m with
         bus := r2.1
         log := m.log ++
           [Event.dataRW CHANNEL [0x48] r1.2, Event.delay 10,
            Event.dataRW CHANNEL [0x00, 0, 0, 0] r2.2] }) := by
  simp [readTemperatureBus, spiDataRW, delay, bufFrame, bufStore,
    CMD_START_ADC_CONVERSION, CMD_READ_ADC_RESULT, List.range_succ]

/-- The local `adc24` in terms of the reply to the second transfer. -/
theorem readTemperatureAdc24_eq {σ : Type} (spi : Spi σ) (junk : Buffer) (m : Machine σ) :
    readTemperatureAdc24 spi junk m =
      (let r1 := spi.wiringPiSPIDataRW m.bus CHANNEL [0x48]
       let r2 := spi.wiringPiSPIDataRW r1.1 CHANNEL [0x00, 0, 0, 0]
       adc24Of (bufWriteBack (fun _ => 0) 4 r2.2.data)) := by
  simp [readTemperatureAdc24, readTemperatureBus, spiDataRW, delay, bufFrame, bufStore,
    bufWriteBack, adc24Of, CMD_START_ADC_CONVERSION, CMD_READ_ADC_RESULT, List.range_succ]

theorem repliesDuring_readTemperature {σ : Type} (spi : Spi σ) (junk : Buffer)
    (m : Machine σ) :
    repliesDuring m (readTemperature spi junk m).2 =
      (let r1 := spi.wiringPiSPIDataRW m.bus CHANNEL [0x48]
       let r2 := spi.wiringPiSPIDataRW r1.1 CHANNEL [0x00, 0, 0, 0]
       [r1.2, r2.2]) := by
  simp [repliesDuring, readTemperature, readTemperatureBus_fst, replies_append, replies]

theorem bufWriteBack_zero_lt (len : Nat) (data : List Nat) (j : Nat) :
    bufWriteBack (fun _ => 0) len data j < 256 := by
  unfold bufWriteBack
  split
  · exact Nat.mod_lt _ (by norm_num)
  · norm_num

/-- Three bytes never overflow the `int` of line 118. -/
theorem adc24Of_bytes (buf : Buffer) (h1 : buf 1 < 256) (h2 : buf 2 < 256)
    (h3 : buf 3 < 256) :
    adc24Of buf = ((buf 1 * 65536 + buf 2 * 256 + buf 3 : ℕ) : ℤ) := by
  unfold adc24Of wrapInt32
  push_cast
  omega

theorem bytes_shift_or (b1 b2 b3 : Nat) (h2 : b2 < 256) (h3 : b3 < 256) :
    b1 * 65536 + b2 * 256 + b3 = (b1 <<< 16) ||| (b2 <<< 8) ||| b3 := by
  have e1 : b1 <<< 16 = 2 ^ 16 * b1 := by rw [Nat.shiftLeft_eq, Nat.mul_comm]
  have e2 : b2 <<< 8 = 2 ^ 8 * b2 := by rw [Nat.shiftLeft_eq, Nat.mul_comm]
  have hlow : 2 ^ 8 * b2 < 2 ^ 16 := by omega
  have s1 : 2 ^ 16 * b1 + 2 ^ 8 * b2 = 2 ^ 16 * b1 ||| 2 ^ 8 * b2 :=
    Nat.mul_add_lt_is_or hlow b1
  have s2 : 2 ^ 8 * (2 ^ 8 * b1 + b2) + b3 = 2 ^ 8 * (2 ^ 8 * b1 + b2) ||| b3 :=
    Nat.mul_add_lt_is_or (by omega) _
  have s3 : 2 ^ 8 * (2 ^ 8 * b1 + b2) = 2 ^ 16 * b1 + 2 ^ 8 * b2 := by ring
  rw [e1, e2, ← s1, ← s3, ← s2]
  ring

/-! ## Lemmas on the binary32 conversion -/

theorem roundHalfEven_intCast (z : ℤ) : roundHalfEven (z : ℚ) = z := by
  simp [roundHalfEven]

theorem f32UlpExp_le (n : ℕ) (e : ℤ) (hpos : 0 < n) (hn : n < 2 ^ 24) (he : -149 ≤ e) :
    f32UlpExp ((n : ℚ) * 2 ^ e) ≤ e := by
  have hq : (0 : ℚ) < (n : ℚ) * 2 ^ e := by positivity
  have h24 : (n : ℚ) < 2 ^ (24 : ℤ) := by
    have : (n : ℚ) < ((2 ^ 24 : ℕ) : ℚ) := by exact_mod_cast hn
    norm_num at this ⊢
    exact this
  have h2 : (0 : ℚ) < 2 ^ e := by positivity
  have hlt : (n : ℚ) * 2 ^ e < ((2 : ℕ) : ℚ) ^ (24 + e) := by
    calc (n : ℚ) * 2 ^ e < 2 ^ (24 : ℤ) * 2 ^ e := mul_lt_mul_of_pos_right h24 h2
      _ = ((2 : ℕ) : ℚ) ^ (24 + e) := by
          rw [Nat.cast_ofNat, zpow_add₀ (by norm_num : (2 : ℚ) ≠ 0)]
  have hlog : Int.log 2 |(n : ℚ) * 2 ^ e| < 24 + e := by
    rw [abs_of_pos hq]
    exact (Int.lt_zpow_iff_log_lt (by norm_num) hq).1 hlt
  unfold f32UlpExp
  exact max_le he (by omega)

/-- A value with at most 24 significant bits, above the subnormal floor, is a
binary32 number: rounding leaves it as it is. -/
theorem roundF32_exact (n : ℕ) (e : ℤ) (hn : n < 2 ^ 24) (he : -149 ≤ e) :
    roundF32 ((n : ℚ) * 2 ^ e) = (n : ℚ) * 2 ^ e := by
  rcases Nat.eq_zero_or_pos n with h0 | hpos
  · subst h0
    simp [roundF32, roundHalfEven]
  · have hE := f32UlpExp_le n e hpos hn he
    unfold roundF32
    generalize f32UlpExp ((n : ℚ) * 2 ^ e) = E at hE
    obtain ⟨d, hd⟩ := Int.le.dest hE
    subst hd
    have hE0 : (2 : ℚ) ^ E ≠ 0 := by positivity
    have hquot : (n : ℚ) * 2 ^ (E + (d : ℤ)) / 2 ^ E = (((n : ℤ) * 2 ^ d : ℤ) : ℚ) := by
      rw [zpow_add₀ (by norm_num : (2 : ℚ) ≠ 0), zpow_natCast]
      field_simp
      ring
    rw [hquot, roundHalfEven_intCast, zpow_add₀ (by norm_num : (2 : ℚ) ≠ 0), zpow_natCast]
    push_cast
    ring

theorem roundF32_natCast (r : ℕ) (hr : r < 2 ^ 24) : roundF32 (r : ℚ) = (r : ℚ) := by
  have := roundF32_exact r 0 hr (by norm_num)
  simpa using this

theorem adc16Of_exact (r : ℕ) (hr : r < 2 ^ 24) : adc16Of (r : ℤ) = (r : ℚ) / 256 := by
  have h1 : roundF32 (((r : ℤ) : ℚ)) = (r : ℚ) := by
    simpa using roundF32_natCast r hr
  have h2 : roundF32 ((r : ℚ) / 256) = (r : ℚ) / 256 := by
    have := roundF32_exact r (-8) hr (by norm_num)
    have e : (r : ℚ) * 2 ^ (-8 : ℤ) = (r : ℚ) / 256 := by
      rw [zpow_neg]; norm_num; ring
    rwa [e] at this
  unfold adc16Of
  rw [h1, h2]

/-- The binary32 model does round: `2^24 + 1` needs 25 significant bits and is
rounded to `2^24`. -/
theorem roundF32_rounds : roundF32 16777217 = 16777216 := by
  have hlog : Int.log 2 |(16777217 : ℚ)| = 24 := by
    rw [abs_of_pos (by norm_num)]
    have : (16777217 : ℚ) = ((16777217 : ℕ) : ℚ) := by norm_num
    rw [this, Int.log_natCast]
    have : Nat.log 2 16777217 = 24 := by
      rw [Nat.log_eq_iff (by norm_num)]
      norm_num
    rw [this]; rfl
  have hE : f32UlpExp 16777217 = 1 := by
    unfold f32UlpExp
    rw [hlog]; norm_num
  unfold roundF32
  rw [hE]
  have : roundHalfEven ((16777217 : ℚ) / 2 ^ (1 : ℤ)) = 8388608 := by
    unfold roundHalfEven
    have hf : ⌊(16777217 : ℚ) / 2 ^ (1 : ℤ)⌋ = 8388608 := by
      rw [Int.floor_eq_iff]; norm_num
    simp only [hf]
    norm_num
  rw [this]
  norm_num

theorem calWord_answers {σ : Type} (spi : Spi σ) (f : Nat → Nat) (h : Answers spi f) (s : σ)
    (c : Nat) (hc : c < 256) :
    calWord (spi.wiringPiSPIDataRW s CHANNEL [c, 0, 0]).2.data = f c := by
  obtain ⟨hf, st, b0, hr⟩ := h s c hc
  rw [hr]
  exact calWord_of_value b0 (f c) hf

theorem readTemperatureAdc24_range {σ : Type} (spi : Spi σ) (junk : Buffer) (m : Machine σ) :
    ∃ r : ℕ, r < 2 ^ 24 ∧ readTemperatureAdc24 spi junk m = (r : ℤ) := by
  rw [readTemperatureAdc24_eq]
  simp only []
  generalize (spi.wiringPiSPIDataRW (spi.wiringPiSPIDataRW m.bus CHANNEL [0x48]).1 CHANNEL
    [0x00, 0, 0, 0]).2.data = data
  have h1 := bufWriteBack_zero_lt 4 data 1
  have h2 := bufWriteBack_zero_lt 4 data 2
  have h3 := bufWriteBack_zero_lt 4 data 3
  exact ⟨_, by omega, adc24Of_bytes _ h1 h2 h3⟩

/-! ## The claims -/

/-- C1. Whichever of the five calibration transfers replies with the three
bytes `[b0, hi, lo]`, `hi` and `lo` in `0 .. 255`, the coefficient that
`readCalibrationParameters` stores for that transfer is `hi * 256 + lo`, a
value that fits the unsigned 16-bit variable. -/
theorem coefficient_decoding {σ : Type} (spi : Spi σ) (junk : Buffer) (m : Machine σ)
    (i : Nat) (st : Int) (b0 hi lo : Nat) (hhi : hi < 256) (hlo : lo < 256)
    (h : (repliesDuring m (readCalibrationParameters spi junk m))[i]? =
      some ⟨st, [b0, hi, lo]⟩) :
    (readCalibrationParameters spi junk m).storedInOrder[i]? = some (hi * 256 + lo) ∧
      hi * 256 + lo ≤ 65535 := by
  refine ⟨?_, by omega⟩
  rw [storedInOrder_readCalibrationParameters, List.getElem?_map, h]
  simp [calWord_three b0 hi lo hhi hlo]

/-- Witness of C1: on the marker transport the first transfer replies
`[0, 0xA2, 0xA2]` and `k4`, the first coefficient stored, becomes `0xA2A2`. -/
theorem coefficient_decoding_witness :
    ((162 < 256 ∧ 162 < 256) ∧
      (repliesDuring (Machine.init ())
        (readCalibrationParameters markerSpi zeroJunk (Machine.init ())))[0]? =
        some ⟨3, [0, 162, 162]⟩) ∧
    ((readCalibrationParameters markerSpi zeroJunk (Machine.init ())).storedInOrder[0]? =
        some (162 * 256 + 162) ∧ 162 * 256 + 162 ≤ 65535) :=
  ⟨⟨⟨by decide, by decide⟩, by decide⟩,
    coefficient_decoding markerSpi zeroJunk (Machine.init ()) 0 3 0 162 162
      (by decide) (by decide) (by decide)⟩

/-- C2. For every transport, `readCalibrationParameters` makes exactly five
transfers, with command bytes `0xA2, 0xA4, 0xA6, 0xA8, 0xAA` in this order (so
`0xA0`, `0xAC` and `0xAE` are never sent); and on a transport that answers each
command `c` with its own value `f c`, the value answered to `0xA2` ends in
`k4`, to `0xA4` in `k3`, to `0xA6` in `k2`, to `0xA8` in `k1` and to `0xAA` in
`k0`. -/
theorem calibration_command_order {σ : Type} (spi : Spi σ) (junk : Buffer) (m : Machine σ) :
    framesDuring m (readCalibrationParameters spi junk m) =
        [[0xA2, 0, 0], [0xA4, 0, 0], [0xA6, 0, 0], [0xA8, 0, 0], [0xAA, 0, 0]] ∧
      (repliesDuring m (readCalibrationParameters spi junk m)).length = 5 ∧
      commandBytes (framesDuring m (readCalibrationParameters spi junk m)) =
        [0xA2, 0xA4, 0xA6, 0xA8, 0xAA] ∧
      (CMD_READ_PROM_ADDR_0 ∉
          commandBytes (framesDuring m (readCalibrationParameters spi junk m)) ∧
        CMD_READ_PROM_ADDR_6 ∉
          commandBytes (framesDuring m (readCalibrationParameters spi junk m)) ∧
        CMD_READ_PROM_ADDR_7 ∉
          commandBytes (framesDuring m (readCalibrationParameters spi junk m))) ∧
      ∀ f : Nat → Nat, Answers spi f →
        (readCalibrationParameters spi junk m).k4 = f 0xA2 ∧
        (readCalibrationParameters spi junk m).k3 = f 0xA4 ∧
        (readCalibrationParameters spi junk m).k2 = f 0xA6 ∧
        (readCalibrationParameters spi junk m).k1 = f 0xA8 ∧
        (readCalibrationParameters spi junk m).k0 = f 0xAA := by
  refine ⟨framesDuring_readCalibrationParameters spi junk m, ?_, ?_, ?_, ?_⟩
  · simp [repliesDuring_readCalibrationParameters]
  · simp [framesDuring_readCalibrationParameters, commandBytes]
  · simp [framesDuring_readCalibrationParameters, commandBytes, CMD_READ_PROM_ADDR_0,
      CMD_READ_PROM_ADDR_6, CMD_READ_PROM_ADDR_7]
  · intro f h
    refine ⟨?_, ?_, ?_, ?_, ?_⟩
    all_goals
      simp only [readCalibrationParameters_eq]
      exact calWord_answers spi f h _ _ (by norm_num)

/-- Witness of C2: the marker transport answers command `c` with the value
`c * 257`, and the five coefficients are the five markers, `k4` first; on the
transport whose third transfer fails, which answers no command with a value of
its own, the same five frames are sent. -/
theorem calibration_command_order_witness :
    Answers markerSpi markerOf ∧
      (readCalibrationParameters markerSpi zeroJunk (Machine.init ())).k4 = markerOf 0xA2 ∧
      (readCalibrationParameters markerSpi zeroJunk (Machine.init ())).k0 = markerOf 0xAA ∧
      framesDuring (Machine.init 0)
          (readCalibrationParameters failThirdSpi zeroJunk (Machine.init 0)) =
        [[0xA2, 0, 0], [0xA4, 0, 0], [0xA6, 0, 0], [0xA8, 0, 0], [0xAA, 0, 0]] :=
  ⟨markerSpi_answers,
    ((calibration_command_order markerSpi zeroJunk (Machine.init ())).2.2.2.2
      markerOf markerSpi_answers).1,
    ((calibration_command_order markerSpi zeroJunk (Machine.init ())).2.2.2.2
      markerOf markerSpi_answers).2.2.2.2,
    (calibration_command_order failThirdSpi zeroJunk (Machine.init 0)).1⟩

/-- Counterexample to C4: at program start, with all five coefficients still
zero and no calibration read, `readTemperature` returns the number `0`; it
does not report `NotCalibrated`. -/
theorem readTemperature_uncalibrated_returns_number :
    (Machine.init ()).coeffs = [0, 0, 0, 0, 0] ∧
      readTemperatureOutcome markerSpi zeroJunk (Machine.init ()) = Except.ok 0 ∧
      readTemperatureOutcome markerSpi zeroJunk (Machine.init ()) ≠
        Except.error DriverError.notCalibrated := by
  have h : readTemperatureOutcome markerSpi zeroJunk (Machine.init ()) = Except.ok 0 := by
    simp [readTemperatureOutcome, readTemperature, readTemperatureBus_fst, temperatureExpr,
      Machine.init]
  refine ⟨rfl, h, ?_⟩
  rw [h]
  exact fun e => nomatch e

/-- C4, amended. When the coefficients are still at their initial values (all
zero), `readTemperature` runs its usual transaction (StartConversion, 10 ms
delay, ReadADCResult) and returns the numeric value `0`, for every response of
the transport; the driver keeps no record of whether a calibration read has
taken place. -/
theorem readTemperature_uncalibrated {σ : Type} (spi : Spi σ) (junk : Buffer)
    (m : Machine σ) (h : m.coeffs = [0, 0, 0, 0, 0]) :
    readTemperatureOutcome spi junk m = Except.ok 0 ∧
      (readTemperature spi junk m).2.log.map Event.action =
        m.log.map Event.action ++
          [Action.transfer CHANNEL [0x48], Action.delay 10,
           Action.transfer CHANNEL [0x00, 0, 0, 0]] := by
  simp only [Machine.coeffs, List.cons.injEq, and_true] at h
  obtain ⟨h0, h1, h2, h3, h4⟩ := h
  constructor
  · simp [readTemperatureOutcome, readTemperature, readTemperatureBus_fst, temperatureExpr,
      h0, h1, h2, h3, h4]
  · simp [readTemperature, readTemperatureBus_fst, Event.action]

/-- Witness of C4, amended: the machine at program start, on the transport
whose third transfer fails. -/
theorem readTemperature_uncalibrated_witness :
    (Machine.init 0).coeffs = [0, 0, 0, 0, 0] ∧
      readTemperatureOutcome failThirdSpi zeroJunk (Machine.init 0) = Except.ok 0 :=
  ⟨rfl, (readTemperature_uncalibrated failThirdSpi zeroJunk (Machine.init 0) rfl).1⟩

/-- Counterexample to C5: the third of the five calibration transfers fails
(status `-1`, nothing clocked in), yet `readCalibrationParameters` goes on,
adopts the values of the other four transfers (`k4 = k3 = k1 = k0 = 258`),
stores `0` for the failed one, and a following `readTemperature` returns a
number instead of reporting `NotCalibrated`. -/
theorem failed_transfer_still_adopted :
    (repliesDuring (Machine.init 0) afterFailedThird).map Reply.status = [3, 3, -1, 3, 3] ∧
      afterFailedThird.coeffs = [258, 258, 0, 258, 258] ∧
      afterFailedThird.coeffs ≠ (Machine.init 0).coeffs ∧
      readTemperatureOutcome failThirdSpi zeroJunk afterFailedThird ≠
        Except.error DriverError.notCalibrated := by
  refine ⟨by decide, by decide, by decide, ?_⟩
  unfold readTemperatureOutcome
  exact fun e => nomatch e

/-- C5, amended. If the transport fails on one of the five calibration
transfers, `readCalibrationParameters` still makes all five transfers and
stores a value for each coefficient: bytes 1 and 2 of that transfer's buffer,
`hi * 256 + lo`, whatever the transfer's status, a byte the transfer did not
write counting as `0`; and a following `readTemperature` returns a number. -/
theorem calibration_ignores_transfer_failure {σ : Type} (spi : Spi σ) (junk : Buffer)
    (m : Machine σ)
    (hfail : ∃ r ∈ repliesDuring m (readCalibrationParameters spi junk m), r.status < 0) :
    (repliesDuring m (readCalibrationParameters spi junk m)).length = 5 ∧
      framesDuring m (readCalibrationParameters spi junk m) =
        [[0xA2, 0, 0], [0xA4, 0, 0], [0xA6, 0, 0], [0xA8, 0, 0], [0xAA, 0, 0]] ∧
      (readCalibrationParameters spi junk m).storedInOrder =
        (repliesDuring m (readCalibrationParameters spi junk m)).map
          (fun r => calWord r.data) ∧
      ∀ junk' : Buffer, ∃ t : ℚ,
        readTemperatureOutcome spi junk' (readCalibrationParameters spi junk m) =
          Except.ok t := by
  obtain ⟨_, _, _⟩ := hfail
  refine ⟨?_, framesDuring_readCalibrationParameters spi junk m,
    storedInOrder_readCalibrationParameters spi junk m, fun junk' => ⟨_, rfl⟩⟩
  simp [repliesDuring_readCalibrationParameters]

/-- Witness of C5, amended: the transport whose third transfer fails. -/
theorem calibration_ignores_transfer_failure_witness :
    (∃ r ∈ repliesDuring (Machine.init 0)
        (readCalibrationParameters failThirdSpi zeroJunk (Machine.init 0)), r.status < 0) ∧
      (readCalibrationParameters failThirdSpi zeroJunk (Machine.init 0)).storedInOrder =
        (repliesDuring (Machine.init 0)
          (readCalibrationParameters failThirdSpi zeroJunk (Machine.init 0))).map
          (fun r => calWord r.data) :=
  ⟨⟨⟨-1, []⟩, by decide, by decide⟩,
    (calibration_ignores_transfer_failure failThirdSpi zeroJunk (Machine.init 0)
      ⟨⟨-1, []⟩, by decide, by decide⟩).2.2.1⟩

/-- C6. Every frame handed to the transport has the length and content of its
command: `reset` sends `[0x1E]`; `readTemperature` sends `[0x48]` and then
`[0x00, 0, 0, 0]`; `readCalibrationParameters` sends the five 3-byte frames
`[command, 0, 0]`; and whatever sequence of these operations runs from program
start, every frame sent has length 1, 3 or 4. -/
theorem frames_sent_by_operations {σ : Type} (spi : Spi σ) (junk : Buffer) (m : Machine σ) :
    frames (reset spi junk m).log = frames m.log ++ [[0x1E]] ∧
    frames (readTemperature spi junk m).2.log = frames m.log ++ [[0x48], [0x00, 0, 0, 0]] ∧
    frames (readCalibrationParameters spi junk m).log =
      frames m.log ++
        [[0xA2, 0, 0], [0xA4, 0, 0], [0xA6, 0, 0], [0xA8, 0, 0], [0xAA, 0, 0]] ∧
    ∀ (calls : List Call) (bus : σ),
      frameLengths (runCalls spi (Machine.init bus) calls).log ⊆ [1, 3, 4] :=
  ⟨reset_frames spi junk m, readTemperature_frames spi junk m,
    readCalibrationParameters_frames spi junk m,
    fun calls bus => frameLengths_runCalls spi calls (Machine.init bus)
      (by simp [frameLengths, Machine.init, frames])⟩

/-- C7. When the ReadADCResult transfer replies with the four bytes
`[b0, b1, b2, b3]`, `b1 .. b3` in `0 .. 255`, the raw value `adc24` computed by
`readTemperature` is `b1 * 65536 + b2 * 256 + b3`, which equals
`(b1 <<< 16) ||| (b2 <<< 8) ||| b3` and is below `2^24`; neither byte 0 of the
reply nor the earlier contents of the buffer have any influence on it. -/
theorem adc24_assembly {σ : Type} (spi : Spi σ) (junk : Buffer) (m : Machine σ)
    (st : Int) (b0 b1 b2 b3 : Nat) (h1 : b1 < 256) (h2 : b2 < 256) (h3 : b3 < 256)
    (h : (repliesDuring m (readTemperature spi junk m).2)[1]? =
      some ⟨st, [b0, b1, b2, b3]⟩) :
    readTemperatureAdc24 spi junk m = ((b1 * 65536 + b2 * 256 + b3 : ℕ) : ℤ) ∧
      b1 * 65536 + b2 * 256 + b3 = (b1 <<< 16) ||| (b2 <<< 8) ||| b3 ∧
      b1 * 65536 + b2 * 256 + b3 < 2 ^ 24 ∧
      ∀ (buf : Buffer) (b0' : Nat),
        adc24Of (bufWriteBack buf 4 [b0', b1, b2, b3]) =
          ((b1 * 65536 + b2 * 256 + b3 : ℕ) : ℤ) := by
  have key : ∀ (buf : Buffer) (b0' : Nat),
      adc24Of (bufWriteBack buf 4 [b0', b1, b2, b3]) =
        ((b1 * 65536 + b2 * 256 + b3 : ℕ) : ℤ) := by
    intro buf b0'
    have e1 : bufWriteBack buf 4 [b0', b1, b2, b3] 1 = b1 := by
      simp [bufWriteBack, Nat.mod_eq_of_lt h1]
    have e2 : bufWriteBack buf 4 [b0', b1, b2, b3] 2 = b2 := by
      simp [bufWriteBack, Nat.mod_eq_of_lt h2]
    have e3 : bufWriteBack buf 4 [b0', b1, b2, b3] 3 = b3 := by
      simp [bufWriteBack, Nat.mod_eq_of_lt h3]
    rw [adc24Of_bytes _ (by omega) (by omega) (by omega), e1, e2, e3]
  refine ⟨?_, bytes_shift_or b1 b2 b3 h2 h3, by omega, key⟩
  rw [repliesDuring_readTemperature] at h
  simp only [List.getElem?_cons_succ, List.getElem?_cons_zero, Option.some.injEq] at h
  rw [readTemperatureAdc24_eq]
  simp only []
  rw [h]
  exact key _ b0

/-- Witness of C7: a transport that replies `[0xFF, 0x7F, 0xFF, 0xFF]` to the
ReadADCResult frame; `adc24` is `0x7FFFFF`. -/
theorem adc24_assembly_witness :
    (repliesDuring (Machine.init ())
        (readTemperature midScaleSpi zeroJunk (Machine.init ())).2)[1]? =
        some ⟨4, [0xFF, 0x7F, 0xFF, 0xFF]⟩ ∧
      readTemperatureAdc24 midScaleSpi zeroJunk (Machine.init ()) =
        ((0x7F * 65536 + 0xFF * 256 + 0xFF : ℕ) : ℤ) :=
  ⟨by decide,
    (adc24_assembly midScaleSpi zeroJunk (Machine.init ()) 4 0xFF 0x7F 0xFF 0xFF (by decide)
      (by decide) (by decide) (by decide)).1⟩

/-- C8. For every raw value `r` below `2^24`, the conversion of `r` to single
precision is exact and `adc16` is the fraction `r / 256`, not a truncated
quotient; every call of `readTemperature` has `adc16 = adc24 / 256` exactly;
and for `r = 0x7FFFFF`, `adc16 = 32767.99609375`, which is not the integer
quotient `32767`. -/
theorem adc16_exact_quotient (r : ℕ) (hr : r < 2 ^ 24) :
    roundF32 (r : ℚ) = (r : ℚ) ∧
      adc16Of (r : ℤ) = (r : ℚ) / 256 ∧
      (∀ {σ : Type} (spi : Spi σ) (junk : Buffer) (m : Machine σ),
        readTemperatureAdc16 spi junk m = (readTemperatureAdc24 spi junk m : ℚ) / 256) ∧
      adc16Of 0x7FFFFF = 32767.99609375 ∧
      adc16Of 0x7FFFFF ≠ (((0x7FFFFF : ℤ) / 256 : ℤ) : ℚ) := by
  have h7 : adc16Of 0x7FFFFF = 32767.99609375 := by
    have := adc16Of_exact 0x7FFFFF (by norm_num)
    rw [show (((0x7FFFFF : ℕ) : ℤ)) = (0x7FFFFF : ℤ) by norm_num] at this
    rw [this]
    norm_num
  refine ⟨roundF32_natCast r hr, adc16Of_exact r hr, ?_, h7, ?_⟩
  · intro σ spi junk m
    obtain ⟨n, hn, hn'⟩ := readTemperatureAdc24_range spi junk m
    unfold readTemperatureAdc16
    rw [hn', adc16Of_exact n hn]
    push_cast
    rfl
  · rw [h7]
    norm_num

/-- Witness of C8: the raw value `0x7FFFFF`. -/
theorem adc16_exact_quotient_witness :
    (8388607 : ℕ) < 2 ^ 24 ∧ adc16Of ((8388607 : ℕ) : ℤ) = ((8388607 : ℕ) : ℚ) / 256 :=
  ⟨by norm_num, (adc16_exact_quotient 8388607 (by norm_num)).2.1⟩

/-- C9. Every call of `readTemperature` adds exactly three actions to the log,
in this order: the transfer of the StartConversion frame `[0x48]`, a delay of
10 milliseconds, the transfer of the ReadADCResult frame `[0x00, 0, 0, 0]`;
this holds for every transport, whatever it replies. -/
theorem readTemperature_actions {σ : Type} (spi : Spi σ) (junk : Buffer) (m : Machine σ) :
    (readTemperature spi junk m).2.log.map Event.action =
      m.log.map Event.action ++
        [Action.transfer CHANNEL [0x48], Action.delay 10,
         Action.transfer CHANNEL [0x00, 0, 0, 0]] := by
  simp [readTemperature, readTemperatureBus_fst, Event.action]

/-- C10. On a transport that gives the same answers to the same commands,
calling `readCalibrationParameters` twice in a row leaves the same five
coefficients as calling it once, whatever the coefficients were before; and on
any transport the coefficients after a call are determined by the five answers
of that call alone: two calls that get the same answers end with the same
coefficients, from any prior states. -/
theorem readCalibrationParameters_idempotent {σ : Type} (spi : Spi σ)
    (h : SameAnswers spi) (junk₁ junk₂ : Buffer) (m : Machine σ) :
    (readCalibrationParameters spi junk₂ (readCalibrationParameters spi junk₁ m)).coeffs =
        (readCalibrationParameters spi junk₁ m).coeffs ∧
      (∀ (m' : Machine σ) (junk' : Buffer),
        (readCalibrationParameters spi junk' m').coeffs =
          (readCalibrationParameters spi junk₁ m).coeffs) ∧
      ∀ {τ : Type} (spi' : Spi τ) (m' : Machine τ) (junk' : Buffer),
        (repliesDuring m' (readCalibrationParameters spi' junk' m')).map Reply.data =
            (repliesDuring m (readCalibrationParameters spi junk₁ m)).map Reply.data →
          (readCalibrationParameters spi' junk' m').coeffs =
            (readCalibrationParameters spi junk₁ m).coeffs := by
  refine ⟨coeffs_readCalibrationParameters_of_sameAnswers spi h _ _ _ _,
    fun m' junk' => coeffs_readCalibrationParameters_of_sameAnswers spi h _ _ _ _, ?_⟩
  intro τ spi' m' junk' hdata
  have e : ∀ {ρ : Type} (sp : Spi ρ) (j : Buffer) (n : Machine ρ),
      (readCalibrationParameters sp j n).coeffs =
        (((repliesDuring n (readCalibrationParameters sp j n)).map Reply.data).map
          calWord).reverse := by
    intro ρ sp j n
    rw [coeffs_eq_reverse, storedInOrder_readCalibrationParameters, List.map_map]
    rfl
  rw [e, e, hdata]

/-- Witness of C10: the marker transport is stateless, and a second call on
it changes no coefficient. -/
theorem readCalibrationParameters_idempotent_witness :
    SameAnswers markerSpi ∧
      (readCalibrationParameters markerSpi zeroJunk
          (readCalibrationParameters markerSpi zeroJunk (Machine.init ()))).coeffs =
        (readCalibrationParameters markerSpi zeroJunk (Machine.init ())).coeffs :=
  ⟨markerSpi_sameAnswers,
    (readCalibrationParameters_idempotent markerSpi markerSpi_sameAnswers zeroJunk zeroJunk
      (Machine.init ())).1⟩

end Tsys01
